import Mathlib

/-!
Shallow embedding of the realtime message relay server (src/server.js):
the session and room state (identity registry, badge directory,
deduplication window, room membership) and the four event handlers
(join-chat, send-message, badge-update, disconnect).

Modelling conventions:
  - JavaScript objects keyed by strings become association lists whose
    update preserves the position of an existing key, matching the
    enumeration order of object entries.
  - The `sentMessages` set with its paired 10-second `setTimeout` deletion
    becomes a list of (fingerprint, expiry) pairs; a fingerprint counts as
    present at time `now` exactly when `now` is before its expiry
    (insertion time plus 10000 ms), which models the scheduled removal.
  - `new Date().toISOString()` and `Date.now()` are modelled by a
    millisecond clock `now : Nat` passed to each handler; the ISO string in
    fingerprints and payloads is modelled by the decimal rendering of
    `now`, which is likewise injective in the millisecond instant.
  - `randomUUID()` becomes an externally supplied `uuid : String`.
  - Handler effects (socket.emit, io.to(room).emit, io.emit,
    socket.join) become an updated state plus a list of `Output` actions.
-/

namespace RenderBackend

/-- The new-message payload object built by the handlers. -/
structure MessageObj where
  id : String
  message : String
  username : String
  timestamp : String
  messageId : String
  chatType : String
deriving DecidableEq, Repr

/-- One outbound effect of a handler: a private emit of a new-message
payload to one socket, a room broadcast of a new-message payload, or a
badge-update broadcast to all clients. -/
inductive Output where
  | emitToSocket (sid : String) (payload : MessageObj) (chatTypeArg : String)
  | broadcastRoom (room : String) (payload : MessageObj) (chatTypeArg : String)
  | emitAllBadge (address : String) (hasBadge : Bool)
deriving DecidableEq, Repr

/-- Lookup in an association list, first binding for the key wins
(JavaScript object access `m[k]`, `none` for a missing key). -/
def lookupKey {α : Type} (k : String) : List (String × α) → Option α
  | [] => none
  | (k₂, v) :: rest => if k₂ = k then some v else lookupKey k rest

/-- Key update in an association list (`m[k] = v`): overwrites in place
when the key exists, otherwise appends, as a JavaScript object does. -/
def upsert {α : Type} (k : String) (v : α) : List (String × α) → List (String × α)
  | [] => [(k, v)]
  | (k₂, v₂) :: rest => if k₂ = k then (k, v) :: rest else (k₂, v₂) :: upsert k v rest

/-- Key removal from an association list (`delete m[k]`). -/
def removeKey {α : Type} (k : String) : List (String × α) → List (String × α)
  | [] => []
  | (k₂, v₂) :: rest => if k₂ = k then removeKey k rest else (k₂, v₂) :: removeKey k rest

/-- The deduplication window: fingerprints with their scheduled expiry
instants (insertion time plus the 10000 ms retention). -/
abbrev Window : Type := List (String × Nat)

/-- Membership in the deduplication window at instant `now`: some entry
carries this fingerprint and has not yet expired. -/
def windowHas (w : Window) (f : String) (now : Nat) : Bool :=
  w.any fun e => e.1 = f ∧ now < e.2

/-- The check-then-insert admission on the shared `sentMessages` window
(`if (!sentMessages.has(id)) { sentMessages.add(id); ... }` paired with
the 10-second scheduled deletion). Returns whether the fingerprint was
admitted, plus the updated window. -/
def admitOnce (w : Window) (f : String) (now : Nat) : Bool × Window :=
  if windowHas w f now then (false, w) else (true, (f, now + 10000) :: w)

/-- The whole mutable server state: `userAddresses`, `usernames`,
`userBadges`, `sentMessages`, plus the transport-owned room membership
(socket id, room name pairs) and the set of live socket ids
(`io.sockets.sockets`). -/
structure ServerState where
  userAddresses : List (String × String)
  usernames : List (String × String)
  userBadges : List (String × Bool)
  sentMessages : Window
  rooms : List (String × String)
  connected : List String
deriving DecidableEq, Repr

/-- CHAT_ROOMS.NORMAL. -/
def normalRoom : String := "chat-normal"

/-- CHAT_ROOMS.VIP. -/
def vipRoom : String := "chat-vip"

/-- Model of JavaScript `String.prototype.toLowerCase` (character-wise
lower-casing; agrees with it on the ASCII inputs the server handles). -/
def jsToLower (s : String) : String := ⟨s.data.map Char.toLower⟩

/-- normalizeChatType: a truthy input whose lower-casing equals "vip"
gives "vip"; everything else (including an absent or empty input) gives
"normal". -/
def normalizeChatType : Option String → String
  | none => "normal"
  | some s => if s ≠ "" ∧ jsToLower s = "vip" then "vip" else "normal"

/-- getChatRoom: room name for a chat type. -/
def getChatRoom (chatType : String) : String :=
  if chatType = "vip" then vipRoom else normalRoom

/-- Model of `new Date().toISOString()` at millisecond instant `now`:
any injective rendering of the instant serves; we use the decimal one. -/
def isoTimestamp (now : Nat) : String := toString now

/-- socket.join(roomName): set-like binding of a socket to a room. -/
def joinRoom (sid room : String) (rooms : List (String × String)) : List (String × String) :=
  if (sid, room) ∈ rooms then rooms else (sid, room) :: rooms

/-- The conditional address upsert shared by join-chat and send-message
(`if (address) { userAddresses[socket.id] = address.toLowerCase(); }`). -/
def upsertAddr (st : ServerState) (sid address : String) : ServerState :=
  { st with userAddresses :=
      if address ≠ "" then upsert sid (jsToLower address) st.userAddresses
      else st.userAddresses }

/-- The effective sender address of send-message
(`const userAddress = userAddresses[socket.id] || address`). -/
def effectiveAddress (st : ServerState) (sid address : String) : String :=
  let stored := (lookupKey sid st.userAddresses).getD ""
  if stored ≠ "" then stored else address

/-- Badge directory lookup (`userBadges[a.toLowerCase()] || false`). -/
def hasBadge (st : ServerState) (a : String) : Bool :=
  (lookupKey (jsToLower a) st.userBadges).getD false

/-- The fixed private system notice for a badge-less VIP send. -/
def vipRejectMsg (now : Nat) (uuid : String) : MessageObj :=
  { id := "system"
    message := "You need a diamond badge to send messages to the VIP chat"
    username := "System"
    timestamp := isoTimestamp now
    messageId := "system-" ++ toString now ++ "-" ++ uuid
    chatType := "normal" }

/-- The VIP welcome notice sent by the badge-update grant loop. -/
def welcomeMsg (now : Nat) (uuid : String) : MessageObj :=
  { id := "system"
    message := "Congratulations! You now have access to the VIP chat!"
    username := "System"
    timestamp := isoTimestamp now
    messageId := "system-" ++ toString now ++ "-" ++ uuid
    chatType := "vip" }

/-- join-chat handler (src/server.js lines 77-100): normalize the chat
type, store address (lower-cased, when supplied) and username, join the
room named by the normalized type, and re-broadcast the badge when the
supplied address already has one. -/
def joinChat (st : ServerState) (sid username address : String)
    (inputChatType : Option String) : ServerState × List Output :=
  let chatType := normalizeChatType inputChatType
  let roomName := getChatRoom chatType
  let st₁ := upsertAddr st sid address
  let st₂ := { st₁ with usernames := upsert sid username st₁.usernames }
  let st₃ := { st₂ with rooms := joinRoom sid roomName st₂.rooms }
  if address ≠ "" ∧ (lookupKey (jsToLower address) st₃.userBadges).getD false then
    (st₃, [Output.emitAllBadge (jsToLower address) true])
  else
    (st₃, [])

/-- The admitted part of send-message (src/server.js lines 142-167):
build the fingerprint, check-then-insert into the window, and broadcast
to the room when admitted; drop silently otherwise. -/
def relayMessage (st : ServerState) (sid message username userAddress : String)
    (roomName chatType : String) (now : Nat) : ServerState × List Output :=
  let timestamp := isoTimestamp now
  let senderId := if userAddress ≠ "" then userAddress else sid
  let messageId := senderId ++ "-" ++ timestamp ++ "-" ++ message ++ "-" ++ chatType
  match admitOnce st.sentMessages messageId now with
  | (true, w) =>
      ({ st with sentMessages := w },
       [Output.broadcastRoom roomName
          { id := senderId, message := message, username := username,
            timestamp := timestamp, messageId := messageId, chatType := chatType }
          chatType])
  | (false, _) => (st, [])

/-- send-message handler (src/server.js lines 109-168): normalize the
chat type, upsert the supplied address, resolve the effective sender
address, gate VIP sends on the badge (rejecting with a private system
notice and an early return), then deduplicate and broadcast. -/
def sendMessage (st : ServerState) (sid message username address : String)
    (inputChatType : Option String) (now : Nat) (uuid : String) :
    ServerState × List Output :=
  let chatType := normalizeChatType inputChatType
  let roomName := getChatRoom chatType
  let st₁ := upsertAddr st sid address
  let userAddress := effectiveAddress st₁ sid address
  if chatType = "vip" ∧ hasBadge st₁ userAddress = false then
    (st₁, [Output.emitToSocket sid (vipRejectMsg now uuid) "normal"])
  else
    relayMessage st₁ sid message username userAddress roomName chatType now

/-- The badge-update grant loop (src/server.js lines 192-213): walk the
identity registry entries; every live socket whose stored address equals
the normalized address joins the VIP room and receives one welcome
notice. Returns the updated room membership and the welcome emissions in
entry order. -/
def grantVip (na : String) (connected : List String) (now : Nat) (uuid : String) :
    List (String × String) → List (String × String) →
    List (String × String) × List Output
  | [], rooms => (rooms, [])
  | (sid, stored) :: rest, rooms =>
      if stored = na ∧ sid ∈ connected then
        let rooms₁ := joinRoom sid vipRoom rooms
        let r := grantVip na connected now uuid rest rooms₁
        (r.1, Output.emitToSocket sid (welcomeMsg now uuid) "vip" :: r.2)
      else
        grantVip na connected now uuid rest rooms

/-- badge-update handler (src/server.js lines 175-220): no-op on an
empty address; otherwise store the flag, deduplicate the broadcast on a
fingerprint seeded with the current instant, and when admitted broadcast
the flag to everyone and, on a grant, run the VIP grant loop. -/
def badgeUpdate (st : ServerState) (address : String) (hasBadgeArg : Bool)
    (now : Nat) (uuid : String) : ServerState × List Output :=
  if address = "" then (st, [])
  else
    let na := jsToLower address
    let st₁ := { st with userBadges := upsert na hasBadgeArg st.userBadges }
    let badgeEventId :=
      "badge-" ++ na ++ "-" ++ (if hasBadgeArg then "true" else "false")
        ++ "-" ++ toString now
    match admitOnce st₁.sentMessages badgeEventId now with
    | (false, _) => (st₁, [])
    | (true, w) =>
        let st₂ := { st₁ with sentMessages := w }
        if hasBadgeArg then
          let r := grantVip na st₂.connected now uuid st₂.userAddresses st₂.rooms
          ({ st₂ with rooms := r.1 }, Output.emitAllBadge na hasBadgeArg :: r.2)
        else
          (st₂, [Output.emitAllBadge na hasBadgeArg])

/-- disconnect handler (src/server.js lines 222-233): delete the stored
address and username of the disconnecting socket. -/
def disconnect (st : ServerState) (sid : String) : ServerState :=
  { st with
      userAddresses := removeKey sid st.userAddresses,
      usernames := removeKey sid st.usernames }

/-- Recognizer for the global badge broadcast among handler outputs. -/
def isBadgeBroadcast : Output → Bool
  | .emitAllBadge _ _ => true
  | _ => false

/-- Recognizer for a private emit addressed to a given socket. -/
def isPrivateTo (sid : String) : Output → Bool
  | .emitToSocket s _ _ => s == sid
  | _ => false

/-! ### Dynamically-typed inputs

The transport hands handler parameters over untyped; to settle totality
over non-string parameters the relevant handler fragments are also
embedded over a JavaScript value type, with `Except` as the model of a
thrown TypeError. -/

/-- A JavaScript value as a handler parameter may carry it. -/
inductive JSValue where
  | undef
  | null
  | boolean (b : Bool)
  | num (n : Int)
  | str (s : String)
deriving DecidableEq, Repr

/-- JavaScript truthiness of a `JSValue`. -/
def truthy : JSValue → Bool
  | .undef => false
  | .null => false
  | .boolean b => b
  | .num n => n ≠ 0
  | .str s => s ≠ ""

/-- normalizeChatType over a dynamically-typed input: a truthy value is
lower-cased, which throws a TypeError on a non-string (only strings have
toLowerCase); a falsy value short-circuits to "normal". -/
def normalizeChatTypeJS (v : JSValue) : Except String String :=
  if truthy v then
    match v with
    | .str s => Except.ok (if jsToLower s = "vip" then "vip" else "normal")
    | _ => Except.error ("TypeError")
  else Except.ok ("normal")

/-- badge-update handler over a dynamically-typed address: a falsy
address is a silent no-op; a truthy non-string throws a TypeError at
`address.toLowerCase()`; a string runs the handler. -/
def badgeUpdateJS (st : ServerState) (address : JSValue) (hasBadgeArg : Bool)
    (now : Nat) (uuid : String) : Except String (ServerState × List Output) :=
  match address with
  | .str s => Except.ok (badgeUpdate st s hasBadgeArg now uuid)
  | v => if truthy v then Except.error ("TypeError") else Except.ok (st, [])

/-! ### Helper lemmas about the store operations -/

theorem lookupKey_upsert_self {α : Type} (k : String) (v : α) (l : List (String × α)) :
    lookupKey k (upsert k v l) = some v := by
  induction l with
  | nil => simp [upsert, lookupKey]
  | cons e rest ih =>
      by_cases h : e.1 = k
      · simp [upsert, h, lookupKey]
      · simpa [upsert, h, lookupKey] using ih

theorem lookupKey_removeKey_self {α : Type} (k : String) (l : List (String × α)) :
    lookupKey k (removeKey k l) = none := by
  induction l with
  | nil => simp [removeKey, lookupKey]
  | cons e rest ih =>
      by_cases h : e.1 = k
      · simpa [removeKey, h] using ih
      · simpa [removeKey, h, lookupKey] using ih

theorem lookupKey_removeKey_ne {α : Type} (k k₂ : String) (l : List (String × α))
    (h : k₂ ≠ k) : lookupKey k₂ (removeKey k l) = lookupKey k₂ l := by
  induction l with
  | nil => simp [removeKey]
  | cons e rest ih =>
      have hkk : ¬ k = k₂ := fun hk => h hk.symm
      by_cases he : e.1 = k
      · simp [removeKey, he, lookupKey, hkk, ih]
      · by_cases he₂ : e.1 = k₂
        · simp [removeKey, he, lookupKey, he₂, h]
        · simp [removeKey, he, lookupKey, he₂, ih]

theorem mem_joinRoom_self (sid room : String) (rooms : List (String × String)) :
    (sid, room) ∈ joinRoom sid room rooms := by
  by_cases h : (sid, room) ∈ rooms <;> simp [joinRoom, h]

theorem admitOnce_of_has {w : Window} {f : String} {t : Nat}
    (h : windowHas w f t = true) : admitOnce w f t = (false, w) := by
  simp [admitOnce, h]

theorem admitOnce_of_not_has {w : Window} {f : String} {t : Nat}
    (h : windowHas w f t = false) : admitOnce w f t = (true, (f, t + 10000) :: w) := by
  simp [admitOnce, h]

theorem windowHas_snd_admitOnce (w : Window) (f : String) (t : Nat) :
    windowHas (admitOnce w f t).2 f t = true := by
  by_cases h : windowHas w f t
  · rw [admitOnce_of_has h]; exact h
  · simp only [Bool.not_eq_true] at h
    rw [admitOnce_of_not_has h]
    have ht : t < t + 10000 := by omega
    simp [windowHas, ht]

theorem admitOnce_true_inv {w : Window} {f : String} {t : Nat} {w₂ : Window}
    (h : admitOnce w f t = (true, w₂)) : w₂ = (f, t + 10000) :: w := by
  by_cases hh : windowHas w f t
  · rw [admitOnce_of_has hh] at h
    simp at h
  · simp only [Bool.not_eq_true] at hh
    rw [admitOnce_of_not_has hh] at h
    injection h with h₁ h₂
    exact h₂.symm

theorem grantVip_countP_badge (na : String) (c : List String) (now : Nat) (u : String) :
    ∀ (entries rooms : List (String × String)),
      ((grantVip na c now u entries rooms).2).countP isBadgeBroadcast = 0 := by
  intro entries
  induction entries with
  | nil => intro rooms; rfl
  | cons e rest ih =>
      intro rooms
      obtain ⟨sid, stored⟩ := e
      by_cases h : stored = na ∧ sid ∈ c
      · simp [grantVip, h, isBadgeBroadcast, List.countP_cons, ih]
      · simp [grantVip, h, ih]

theorem grantVip_countP_private (na : String) (c : List String) (now : Nat) (u : String)
    (sid : String) :
    ∀ (entries rooms : List (String × String)),
      ((grantVip na c now u entries rooms).2).countP (isPrivateTo sid) ≤
        entries.countP (fun e => e.1 == sid) := by
  intro entries
  induction entries with
  | nil => intro rooms; simp [grantVip]
  | cons e rest ih =>
      intro rooms
      obtain ⟨sid₂, stored⟩ := e
      by_cases h : stored = na ∧ sid₂ ∈ c
      · simp only [grantVip, h, if_true, List.countP_cons]
        have := ih (joinRoom sid₂ vipRoom rooms)
        by_cases hs : sid₂ == sid
        · simp [isPrivateTo, hs]
          omega
        · simp [isPrivateTo, hs]
          omega
      · simp only [grantVip, h, if_false, List.countP_cons]
        have := ih rooms
        omega

/-! ### Claim theorems -/

/-- C1 counterexample: a join-chat event whose requested room kind
normalizes to Privileged does bind the connection to the Privileged room
group (chat-vip), with no badge involved: the join handler, not only
grantPrivileged, can create Privileged membership. -/
theorem joinChat_vip_request_joins_vip_counterexample :
    ("s1", vipRoom) ∈
      (joinChat ⟨[], [], [], [], [], ["s1"]⟩ ("s1") ("alice") ("") (some ("vip"))).1.rooms := by
  decide

/-- C1 (amended): the join handler binds the connection to the room group
named by the normalized requested room kind — the Privileged group
included, whenever the request normalizes to Privileged; no badge check
guards this binding. -/
theorem joinChat_binds_requested_room (st : ServerState)
    (sid username address : String) (ict : Option String) :
    (sid, getChatRoom (normalizeChatType ict)) ∈
      (joinChat st sid username address ict).1.rooms := by
  unfold joinChat
  simp only []
  split <;> exact mem_joinRoom_self _ _ _

/-- C2: evaluation at the failing input. Two send-message events from the
same sender with identical text, display name, address and room kind,
processed 2 seconds apart (millisecond instants 1000 and 3000), BOTH
produce a room broadcast: the fingerprint embeds the server-side receipt
timestamp, so the retry is not suppressed by the deduplication window. -/
theorem sendMessage_retry_not_suppressed :
    (sendMessage ⟨[], [], [], [], [], ["s1"]⟩
        ("s1") ("hello") ("alice") ("0xAB") (some ("normal")) 1000 ("u1")).2 =
      [Output.broadcastRoom ("chat-normal")
        ⟨"0xab", "hello", "alice", "1000", "0xab-1000-hello-normal", "normal"⟩ ("normal")] ∧
    (sendMessage
        (sendMessage ⟨[], [], [], [], [], ["s1"]⟩
          ("s1") ("hello") ("alice") ("0xAB") (some ("normal")) 1000 ("u1")).1
        ("s1") ("hello") ("alice") ("0xAB") (some ("normal")) 3000 ("u2")).2 =
      [Output.broadcastRoom ("chat-normal")
        ⟨"0xab", "hello", "alice", "3000", "0xab-3000-hello-normal", "normal"⟩ ("normal")] := by
  constructor <;> decide

/-- C8: room normalization. Any input lower-casing to "vip" normalizes to
the Privileged kind; every other input — "normal", the empty string, an
absent value, any unrecognized string — normalizes to Standard. -/
theorem normalizeChatType_spec :
    normalizeChatType (some ("VIP")) = "vip" ∧
    normalizeChatType (some ("vip")) = "vip" ∧
    normalizeChatType (some ("Vip")) = "vip" ∧
    normalizeChatType (some ("normal")) = "normal" ∧
    normalizeChatType (some ("")) = "normal" ∧
    normalizeChatType none = "normal" ∧
    normalizeChatType (some ("anything-else")) = "normal" ∧
    (∀ s : String, jsToLower s = "vip" → normalizeChatType (some s) = "vip") ∧
    (∀ s : String, jsToLower s ≠ "vip" → normalizeChatType (some s) = "normal") := by
  refine ⟨by decide, by decide, by decide, by decide, by decide, rfl, by decide, ?_, ?_⟩
  · intro s h
    have hne : s ≠ "" := by
      intro he
      rw [he] at h
      exact absurd h (by decide)
    simp [normalizeChatType, hne, h]
  · intro s h
    simp [normalizeChatType, h]

/-- C8 witness: the two general normalization implications applied at
concrete inputs. -/
theorem normalizeChatType_spec_witness :
    normalizeChatType (some ("vIp")) = "vip" ∧ normalizeChatType (some ("xyz")) = "normal" := by
  constructor
  · exact normalizeChatType_spec.2.2.2.2.2.2.2.1 ("vIp") (by decide)
  · exact normalizeChatType_spec.2.2.2.2.2.2.2.2 ("xyz") (by decide)

/-- C6: idempotent admission. When the window holds no live entry for
fingerprint F (all its entries for F, if any, already expired), the first
admitOnce at instant t admits; every later call at an instant within 10
seconds of t is refused; a call at an instant 10 or more seconds after t,
the entry having expired, admits again. -/
theorem admitOnce_spec (w : Window) (F : String) (t t₂ t₃ : Nat)
    (hw : ∀ e ∈ w, e.1 = F → e.2 ≤ t)
    (h₁ : t ≤ t₂) (h₂ : t₂ < t + 10000) (h₃ : t + 10000 ≤ t₃) :
    (admitOnce w F t).1 = true ∧
    (admitOnce (admitOnce w F t).2 F t₂).1 = false ∧
    (admitOnce (admitOnce w F t).2 F t₃).1 = true := by
  have hhas : windowHas w F t = false := by
    simp only [windowHas, List.any_eq_false, decide_eq_true_eq, not_and]
    intro e he hf
    have := hw e he hf
    omega
  rw [admitOnce_of_not_has hhas]
  refine ⟨rfl, ?_, ?_⟩
  · have : windowHas ((F, t + 10000) :: w) F t₂ = true := by
      simp [windowHas, h₂]
    rw [admitOnce_of_has this]
  · have : windowHas ((F, t + 10000) :: w) F t₃ = false := by
      simp only [windowHas, List.any_cons, List.any_eq_false, Bool.or_eq_false_iff,
        decide_eq_true_eq, not_and]
      refine ⟨by simp; omega, ?_⟩
      intro e he hf
      have := hw e he hf
      omega
    rw [admitOnce_of_not_has this]

/-- C6 witness: the admission triple evaluated on the empty window with
instants 0, 5000 and 10000. -/
theorem admitOnce_spec_witness :
    (admitOnce [] ("f") 0).1 = true ∧
    (admitOnce (admitOnce [] ("f") 0).2 ("f") 5000).1 = false ∧
    (admitOnce (admitOnce [] ("f") 0).2 ("f") 10000).1 = true :=
  admitOnce_spec [] ("f") 0 5000 10000 (by decide) (by decide) (by decide) (by decide)

/-- C9: the disconnect handler removes exactly the disconnecting
connection identity record: the badge directory, the room membership,
the deduplication window and the live-connection set are unchanged, the
disconnecting socket address and username are gone, and the records of
every other connection are untouched. -/
theorem disconnect_frame (st : ServerState) (sid : String) :
    (disconnect st sid).userBadges = st.userBadges ∧
    (disconnect st sid).rooms = st.rooms ∧
    (disconnect st sid).sentMessages = st.sentMessages ∧
    (disconnect st sid).connected = st.connected ∧
    lookupKey sid (disconnect st sid).userAddresses = none ∧
    lookupKey sid (disconnect st sid).usernames = none ∧
    (∀ sid₂ : String, sid₂ ≠ sid →
      lookupKey sid₂ (disconnect st sid).userAddresses = lookupKey sid₂ st.userAddresses ∧
      lookupKey sid₂ (disconnect st sid).usernames = lookupKey sid₂ st.usernames) := by
  refine ⟨rfl, rfl, rfl, rfl, ?_, ?_, ?_⟩
  · exact lookupKey_removeKey_self sid st.userAddresses
  · exact lookupKey_removeKey_self sid st.usernames
  · intro sid₂ h
    exact ⟨lookupKey_removeKey_ne sid sid₂ st.userAddresses h,
           lookupKey_removeKey_ne sid sid₂ st.usernames h⟩

/-- C9 witness: the frame property of disconnect evaluated on a state
with two connections and one badge. -/
theorem disconnect_frame_witness :
    (disconnect ⟨[("s1", "0xaa"), ("s2", "0xbb")], [("s1", "alice"), ("s2", "bob")],
        [("0xaa", true)], [], [("s1", "chat-normal"), ("s2", "chat-normal")],
        ["s1", "s2"]⟩ ("s1")).userBadges = [("0xaa", true)] ∧
    lookupKey ("s2")
      (disconnect ⟨[("s1", "0xaa"), ("s2", "0xbb")], [("s1", "alice"), ("s2", "bob")],
        [("0xaa", true)], [], [("s1", "chat-normal"), ("s2", "chat-normal")],
        ["s1", "s2"]⟩ ("s1")).userAddresses = some ("0xbb") := by
  constructor
  · exact (disconnect_frame _ _).1
  · exact ((disconnect_frame _ ("s1")).2.2.2.2.2.2 ("s2") (by decide)).1.trans (by decide)

/-- C10: a badge-update that revokes (hasBadge false) leaves the room
membership exactly as it was — no connection is removed from the
Privileged room group — while the badge directory thereafter reports
hasBadge false for the revoked address, so the connection own Privileged
sends are rejected from then on. -/
theorem badgeUpdate_revoke_keeps_rooms (st : ServerState) (a : String)
    (now : Nat) (u : String) :
    (badgeUpdate st a false now u).1.rooms = st.rooms ∧
    (a ≠ "" → hasBadge (badgeUpdate st a false now u).1 a = false) := by
  by_cases ha : a = ""
  · simp [badgeUpdate, ha]
  · constructor
    · rcases hA : admitOnce st.sentMessages
          ("badge-" ++ jsToLower a ++ "-" ++ "false" ++ "-" ++ toString now) now with ⟨b, w⟩
      cases b <;> simp [badgeUpdate, ha, hA]
    · intro _
      simp only [badgeUpdate, ha, if_false]
      rcases hA : admitOnce st.sentMessages
          ("badge-" ++ jsToLower a ++ "-" ++ "false" ++ "-" ++ toString now) now with ⟨b, w⟩
      cases b <;>
        simp [badgeUpdate, ha, hA, hasBadge, lookupKey_upsert_self]

/-- C10 witness: revoking the badge of an address with a VIP-bound
connection leaves that binding in place. -/
theorem badgeUpdate_revoke_keeps_rooms_witness :
    (badgeUpdate ⟨[("s1", "0xaa")], [("s1", "alice")], [("0xaa", true)], [],
        [("s1", "chat-normal"), ("s1", "chat-vip")], ["s1"]⟩
      ("0xAA") false 42 ("u")).1.rooms = [("s1", "chat-normal"), ("s1", "chat-vip")] ∧
    hasBadge (badgeUpdate ⟨[("s1", "0xaa")], [("s1", "alice")], [("0xaa", true)], [],
        [("s1", "chat-normal"), ("s1", "chat-vip")], ["s1"]⟩
      ("0xAA") false 42 ("u")).1 ("0xAA") = false := by
  constructor
  · exact (badgeUpdate_revoke_keeps_rooms _ _ _ _).1
  · exact (badgeUpdate_revoke_keeps_rooms _ ("0xAA") 42 ("u")).2 (by decide)

/-- C3 counterexample: a rejected Privileged send is not mutation-free.
With a stored address 0xold, a badge-less send to the VIP room carrying
the fresh address 0xNEW is rejected with the private system notice, yet
the identity registry has been updated to 0xnew by the time of the
rejection: the address upsert precedes the badge check. -/
theorem sendMessage_reject_mutates_registry_counterexample :
    (sendMessage ⟨[("s1", "0xold")], [("s1", "alice")], [], [],
        [("s1", "chat-normal")], ["s1"]⟩
        ("s1") ("hi") ("alice") ("0xNEW") (some ("vip")) 500 ("u")).2 =
      [Output.emitToSocket ("s1") (vipRejectMsg 500 ("u")) ("normal")] ∧
    (sendMessage ⟨[("s1", "0xold")], [("s1", "alice")], [], [],
        [("s1", "chat-normal")], ["s1"]⟩
        ("s1") ("hi") ("alice") ("0xNEW") (some ("vip")) 500 ("u")).1.userAddresses ≠
      [("s1", "0xold")] := by
  constructor <;> decide

/-- C3 (amended): a badge-less send to the Privileged room delivers the
fixed private system notice to the sending connection only, tagged as a
Standard-room message, with no broadcast; the badge directory, the
deduplication window, the username registry, the room membership and the
live-connection set are unchanged — but the identity registry ends as
the address upsert leaves it, because that upsert runs before the badge
check (it is not rolled back on rejection). -/
theorem sendMessage_reject_frame (st : ServerState)
    (sid msg usr addr : String) (ict : Option String) (now : Nat) (uuid : String)
    (h₁ : normalizeChatType ict = "vip")
    (h₂ : hasBadge (upsertAddr st sid addr)
        (effectiveAddress (upsertAddr st sid addr) sid addr) = false) :
    (sendMessage st sid msg usr addr ict now uuid).1.userBadges = st.userBadges ∧
    (sendMessage st sid msg usr addr ict now uuid).1.sentMessages = st.sentMessages ∧
    (sendMessage st sid msg usr addr ict now uuid).1.usernames = st.usernames ∧
    (sendMessage st sid msg usr addr ict now uuid).1.rooms = st.rooms ∧
    (sendMessage st sid msg usr addr ict now uuid).1.connected = st.connected ∧
    (sendMessage st sid msg usr addr ict now uuid).1.userAddresses =
      (upsertAddr st sid addr).userAddresses ∧
    (sendMessage st sid msg usr addr ict now uuid).2 =
      [Output.emitToSocket sid (vipRejectMsg now uuid) ("normal")] := by
  have hcond : normalizeChatType ict = "vip" ∧
      hasBadge (upsertAddr st sid addr)
        (effectiveAddress (upsertAddr st sid addr) sid addr) = false := ⟨h₁, h₂⟩
  simp only [sendMessage]
  rw [if_pos hcond]
  exact ⟨rfl, rfl, rfl, rfl, rfl, rfl, rfl⟩

/-- C3 witness: the amended rejection frame property at a concrete badge-
less VIP send that supplies a fresh address. -/
theorem sendMessage_reject_frame_witness :
    (sendMessage ⟨[("s1", "0xold")], [("s1", "alice")], [], [],
        [("s1", "chat-normal")], ["s1"]⟩
        ("s1") ("hi") ("alice") ("0xNEW") (some ("vip")) 500 ("u")).1.userBadges = [] ∧
    (sendMessage ⟨[("s1", "0xold")], [("s1", "alice")], [], [],
        [("s1", "chat-normal")], ["s1"]⟩
        ("s1") ("hi") ("alice") ("0xNEW") (some ("vip")) 500 ("u")).1.sentMessages = [] ∧
    (sendMessage ⟨[("s1", "0xold")], [("s1", "alice")], [], [],
        [("s1", "chat-normal")], ["s1"]⟩
        ("s1") ("hi") ("alice") ("0xNEW") (some ("vip")) 500 ("u")).1.usernames =
      [("s1", "alice")] := by
  have h := sendMessage_reject_frame
    ⟨[("s1", "0xold")], [("s1", "alice")], [], [], [("s1", "chat-normal")], ["s1"]⟩
    ("s1") ("hi") ("alice") ("0xNEW") (some ("vip")) 500 ("u") (by decide) (by decide)
  exact ⟨h.1, h.2.1, h.2.2.1⟩

/-- C5: badge gating of Privileged sends. When the effective sender
address lacks the badge, the send produces no room broadcast and exactly
one private system notice to the sender; when it has the badge, the
badge check rejects nothing — the outcome is a silent dedup drop or a
Privileged-room broadcast, never the rejection notice. -/
theorem sendMessage_badge_gating (st : ServerState)
    (sid msg usr addr : String) (ict : Option String) (now : Nat) (uuid : String)
    (h₁ : normalizeChatType ict = "vip") :
    (hasBadge (upsertAddr st sid addr)
        (effectiveAddress (upsertAddr st sid addr) sid addr) = false →
      (sendMessage st sid msg usr addr ict now uuid).2 =
        [Output.emitToSocket sid (vipRejectMsg now uuid) ("normal")]) ∧
    (hasBadge (upsertAddr st sid addr)
        (effectiveAddress (upsertAddr st sid addr) sid addr) = true →
      (sendMessage st sid msg usr addr ict now uuid).2 = [] ∨
      ∃ m : MessageObj,
        (sendMessage st sid msg usr addr ict now uuid).2 =
          [Output.broadcastRoom vipRoom m ("vip")]) := by
  constructor
  · intro h₂
    have hcond : normalizeChatType ict = "vip" ∧
        hasBadge (upsertAddr st sid addr)
          (effectiveAddress (upsertAddr st sid addr) sid addr) = false := ⟨h₁, h₂⟩
    simp only [sendMessage]
    rw [if_pos hcond]
  · intro h₂
    have hcond : ¬ (normalizeChatType ict = "vip" ∧
        hasBadge (upsertAddr st sid addr)
          (effectiveAddress (upsertAddr st sid addr) sid addr) = false) := by
      rw [h₂]; simp
    simp only [sendMessage]
    rw [if_neg hcond, h₁]
    simp only [relayMessage, getChatRoom, if_pos rfl]
    rcases hA : admitOnce (upsertAddr st sid addr).sentMessages
        ((if effectiveAddress (upsertAddr st sid addr) sid addr ≠ ""
            then effectiveAddress (upsertAddr st sid addr) sid addr else sid)
          ++ "-" ++ isoTimestamp now ++ "-" ++ msg ++ "-" ++ "vip") now with ⟨b, w⟩
    cases b
    · left
      simp [hA]
    · right
      exact ⟨_, rfl⟩

/-- C5 witness: the gating pair at one badge-less and one badged send. -/
theorem sendMessage_badge_gating_witness :
    (sendMessage ⟨[], [], [], [], [], ["s1"]⟩
        ("s1") ("hi") ("alice") ("0xAA") (some ("vip")) 7 ("u")).2 =
      [Output.emitToSocket ("s1") (vipRejectMsg 7 ("u")) ("normal")] ∧
    ((sendMessage ⟨[], [], [("0xaa", true)], [], [], ["s1"]⟩
        ("s1") ("hi") ("alice") ("0xAA") (some ("vip")) 7 ("u")).2 = [] ∨
      ∃ m : MessageObj,
        (sendMessage ⟨[], [], [("0xaa", true)], [], [], ["s1"]⟩
          ("s1") ("hi") ("alice") ("0xAA") (some ("vip")) 7 ("u")).2 =
          [Output.broadcastRoom vipRoom m ("vip")]) := by
  constructor
  · exact (sendMessage_badge_gating ⟨[], [], [], [], [], ["s1"]⟩
      ("s1") ("hi") ("alice") ("0xAA") (some ("vip")) 7 ("u") (by decide)).1 (by decide)
  · exact (sendMessage_badge_gating ⟨[], [], [("0xaa", true)], [], [], ["s1"]⟩
      ("s1") ("hi") ("alice") ("0xAA") (some ("vip")) 7 ("u") (by decide)).2 (by decide)

/-- C4: badge propagation idempotence. A second identical
badge-update(A, true) event handled at the same instant as the first is
wholly suppressed by the badge-broadcast fingerprint (it emits nothing),
so the pair produces at most one global badge broadcast and — whenever
the identity registry holds at most one entry per socket id, as it does
by construction — at most one Privileged-room welcome per connection. -/
theorem badgeUpdate_idempotent (st : ServerState) (a : String) (now : Nat)
    (u₁ u₂ : String) :
    (badgeUpdate (badgeUpdate st a true now u₁).1 a true now u₂).2 = [] ∧
    ((badgeUpdate st a true now u₁).2).countP isBadgeBroadcast ≤ 1 ∧
    (∀ sid : String, st.userAddresses.countP (fun e => e.1 == sid) ≤ 1 →
      ((badgeUpdate st a true now u₁).2).countP (isPrivateTo sid) ≤ 1) := by
  by_cases ha : a = ""
  · simp [badgeUpdate, ha]
  · rcases hA : admitOnce st.sentMessages
        ("badge-" ++ jsToLower a ++ "-" ++ "true" ++ "-" ++ toString now) now with ⟨b, w⟩
    cases b
    · refine ⟨?_, ?_, ?_⟩ <;> simp [badgeUpdate, ha, hA]
    · have hhas₂ : windowHas w
          ("badge-" ++ jsToLower a ++ "-" ++ "true" ++ "-" ++ toString now) now = true := by
        have h := windowHas_snd_admitOnce st.sentMessages
          ("badge-" ++ jsToLower a ++ "-" ++ "true" ++ "-" ++ toString now) now
        rw [hA] at h
        exact h
      refine ⟨?_, ?_, ?_⟩
      · simp [badgeUpdate, ha, hA, admitOnce_of_has hhas₂]
      · simp [badgeUpdate, ha, hA, List.countP_cons, isBadgeBroadcast,
          grantVip_countP_badge]
      · intro sid hsid
        have h₁ := grantVip_countP_private (jsToLower a) st.connected now u₁ sid
          st.userAddresses st.rooms
        simp [badgeUpdate, ha, hA, List.countP_cons, isPrivateTo]
        omega

/-- C4 witness: the idempotence bound at a concrete state with one live
connection bound to the granted address. -/
theorem badgeUpdate_idempotent_witness :
    (badgeUpdate (badgeUpdate ⟨[("s1", "0xaa")], [("s1", "alice")], [], [], [], ["s1"]⟩
        ("0xAA") true 5 ("u1")).1 ("0xAA") true 5 ("u2")).2 = [] ∧
    ((badgeUpdate ⟨[("s1", "0xaa")], [("s1", "alice")], [], [], [], ["s1"]⟩
        ("0xAA") true 5 ("u1")).2).countP (isPrivateTo ("s1")) ≤ 1 :=
  ⟨(badgeUpdate_idempotent ⟨[("s1", "0xaa")], [("s1", "alice")], [], [], [], ["s1"]⟩
      ("0xAA") 5 ("u1") ("u2")).1,
   (badgeUpdate_idempotent ⟨[("s1", "0xaa")], [("s1", "alice")], [], [], [], ["s1"]⟩
      ("0xAA") 5 ("u1") ("u2")).2.2 ("s1") (by decide)⟩

/-- C7 counterexample: the handlers are not total over arbitrary inputs.
A badge-update whose address is the (truthy, non-string) number 5 throws
a TypeError at address.toLowerCase(), as does chat-type normalization on
the same value — rather than normalizing to a safe default. -/
theorem handlers_throw_on_nonstring_counterexample :
    badgeUpdateJS ⟨[], [], [], [], [], []⟩ (JSValue.num 5) true 0 ("u") =
      Except.error ("TypeError") ∧
    normalizeChatTypeJS (JSValue.num 5) = Except.error ("TypeError") :=
  ⟨rfl, rfl⟩

/-- C7 (amended): over the declared string-or-absent inputs the handlers
are total and never throw: every falsy parameter (undefined, null,
false, 0, the empty string) degrades to a silent no-op or the safe
default room kind, and every string input runs the handler to
completion; only a truthy non-string parameter escapes this and throws
a TypeError. -/
theorem handlers_total_on_declared_inputs (st : ServerState) (b : Bool)
    (now : Nat) (u : String) :
    (∀ v : JSValue, truthy v = false →
      badgeUpdateJS st v b now u = Except.ok (st, []) ∧
      normalizeChatTypeJS v = Except.ok ("normal")) ∧
    (∀ s : String,
      badgeUpdateJS st (JSValue.str s) b now u =
        Except.ok (badgeUpdate st s b now u) ∧
      normalizeChatTypeJS (JSValue.str s) =
        Except.ok (normalizeChatType (some s))) := by
  constructor
  · intro v hv
    refine ⟨?_, ?_⟩
    · cases v with
      | str s =>
          simp only [truthy, ne_eq, decide_not] at hv
          have hs : s = "" := by
            by_contra hne
            simp [hne] at hv
          subst hs
          simp [badgeUpdateJS, badgeUpdate]
      | undef => rfl
      | null => rfl
      | boolean bb => simp [badgeUpdateJS, hv]
      | num n => simp [badgeUpdateJS, hv]
    · simp [normalizeChatTypeJS, hv]
  · intro s
    refine ⟨rfl, ?_⟩
    by_cases hs : s = ""
    · subst hs
      simp [normalizeChatTypeJS, normalizeChatType, truthy]
    · simp [normalizeChatTypeJS, normalizeChatType, truthy, hs]

/-- C7 witness: totality at a falsy (null) and at a string parameter. -/
theorem handlers_total_on_declared_inputs_witness :
    (badgeUpdateJS ⟨[], [], [], [], [], []⟩ JSValue.null true 3 ("u") =
       Except.ok (⟨[], [], [], [], [], []⟩, []) ∧
     normalizeChatTypeJS JSValue.null = Except.ok ("normal")) ∧
    (badgeUpdateJS ⟨[], [], [], [], [], []⟩ (JSValue.str ("0xA")) true 3 ("u") =
       Except.ok (badgeUpdate ⟨[], [], [], [], [], []⟩ ("0xA") true 3 ("u")) ∧
     normalizeChatTypeJS (JSValue.str ("0xA")) =
       Except.ok (normalizeChatType (some ("0xA")))) :=
  ⟨(handlers_total_on_declared_inputs ⟨[], [], [], [], [], []⟩ true 3 ("u")).1
      JSValue.null rfl,
   (handlers_total_on_declared_inputs ⟨[], [], [], [], [], []⟩ true 3 ("u")).2 ("0xA")⟩

end RenderBackend
